import Mathlib

/-!
# Verification of the close-approach filter core (`filters.py`)

Shallow embedding of the repository's filter layer:

* the `AttributeFilter` class hierarchy with its ten concrete predicate
  variants (`filters.py`, lines 29-208) and the duplicate catalog under
  `src/filters/` (one file per variant);
* the `create_filters` factory (`filters.py`, lines 211-274);
* the `limit` generator (`filters.py`, lines 277-291), modelled as an
  event trace so that both the yielded values and the consumption of the
  input iterator are visible.

Calendar dates (`approach.time.date()`) are modelled as integers (day
ordinals); the real-valued attributes (distance, velocity, diameter) as
rationals; the hazard flag as a boolean.
-/

namespace NeoSearch

/-- `class UnsupportedCriterionError(NotImplementedError)`: the only error
raised by the core, from the base class's `get`. -/
inductive FilterError where
  | unsupportedCriterionError
deriving DecidableEq, Repr

/-- The NEO attached to a close approach: `neo.diameter`, `neo.hazardous`. -/
structure Neo where
  diameter : ℚ
  hazardous : Bool
deriving DecidableEq, Repr

/-- The timestamp of a close approach; `date` models Python's
`time.date()` as a day ordinal. -/
structure Timestamp where
  date : ℤ
deriving DecidableEq, Repr

/-- A `CloseApproach` record: the attributes the ten filters access. -/
structure CloseApproach where
  time : Timestamp
  distance : ℚ
  velocity : ℚ
  neo : Neo
deriving DecidableEq, Repr

/-- A value an accessor can return, or a reference value a filter stores:
a calendar date, a real number, or a boolean. -/
inductive AttrValue where
  | date (d : ℤ)
  | num (q : ℚ)
  | flag (b : Bool)
deriving DecidableEq, Repr

/-- The comparators drawn from Python's `operator` module by the catalog:
`operator.eq`, `operator.le`, `operator.ge`. -/
inductive PyOp where
  | eq
  | le
  | ge
deriving DecidableEq, Repr

/-- `op(x, y)` for the three comparators, on same-typed operands
(dates with dates, numbers with numbers, booleans with booleans; Python
orders booleans as the integers 0 and 1).  Cross-typed operands never
arise from the catalog constructors, which pair each accessor with a
reference value of the matching type; those branches return `false`. -/
def PyOp.apply : PyOp → AttrValue → AttrValue → Bool
  | .eq, .date x, .date y => decide (x = y)
  | .eq, .num x, .num y => decide (x = y)
  | .eq, .flag x, .flag y => x == y
  | .le, .date x, .date y => decide (x ≤ y)
  | .le, .num x, .num y => decide (x ≤ y)
  | .le, .flag x, .flag y => decide (x ≤ y)
  | .ge, .date x, .date y => decide (x ≥ y)
  | .ge, .num x, .num y => decide (x ≥ y)
  | .ge, .flag x, .flag y => decide (x ≥ y)
  | _, _, _ => false

/-- The `AttributeFilter` hierarchy of `filters.py`.  `mk op value` is a
direct instance of the base class `AttributeFilter` (constructible: the
class declares no abstract method); each remaining constructor is one of
the ten concrete subclasses, holding the single reference value its
`__init__` takes. -/
inductive AttributeFilter where
  | mk (op : PyOp) (value : AttrValue)
  | DateFilter (date : ℤ)
  | DiameterMaxFilter (diameter : ℚ)
  | DiameterMinFilter (diameter : ℚ)
  | DistanceMaxFilter (distance : ℚ)
  | DistanceMinFilter (distance : ℚ)
  | EndDateFilter (date : ℤ)
  | HazardousFilter (hazardous : Bool)
  | StartDateFilter (date : ℤ)
  | VelocityMaxFilter (velocity : ℚ)
  | VelocityMinFilter (velocity : ℚ)
deriving DecidableEq, Repr

namespace AttributeFilter

/-- `self.op`: fixed by each subclass's `super().__init__(operator.X, v)`. -/
def op : AttributeFilter → PyOp
  | .mk o _ => o
  | .DateFilter _ => .eq
  | .DiameterMaxFilter _ => .le
  | .DiameterMinFilter _ => .ge
  | .DistanceMaxFilter _ => .le
  | .DistanceMinFilter _ => .ge
  | .EndDateFilter _ => .le
  | .HazardousFilter _ => .eq
  | .StartDateFilter _ => .ge
  | .VelocityMaxFilter _ => .le
  | .VelocityMinFilter _ => .ge

/-- `self.value`: the reference value stored at construction. -/
def value : AttributeFilter → AttrValue
  | .mk _ v => v
  | .DateFilter d => .date d
  | .DiameterMaxFilter q => .num q
  | .DiameterMinFilter q => .num q
  | .DistanceMaxFilter q => .num q
  | .DistanceMinFilter q => .num q
  | .EndDateFilter d => .date d
  | .HazardousFilter b => .flag b
  | .StartDateFilter d => .date d
  | .VelocityMaxFilter q => .num q
  | .VelocityMinFilter q => .num q

/-- The `get` classmethod: the base class raises
`UnsupportedCriterionError`; each subclass overrides it with its
accessor (`approach.time.date()`, `approach.distance`,
`approach.velocity`, `approach.neo.diameter`, `approach.neo.hazardous`). -/
def get : AttributeFilter → CloseApproach → Except FilterError AttrValue
  | .mk _ _, _ => .error .unsupportedCriterionError
  | .DateFilter _, a => .ok (.date a.time.date)
  | .DiameterMaxFilter _, a => .ok (.num a.neo.diameter)
  | .DiameterMinFilter _, a => .ok (.num a.neo.diameter)
  | .DistanceMaxFilter _, a => .ok (.num a.distance)
  | .DistanceMinFilter _, a => .ok (.num a.distance)
  | .EndDateFilter _, a => .ok (.date a.time.date)
  | .HazardousFilter _, a => .ok (.flag a.neo.hazardous)
  | .StartDateFilter _, a => .ok (.date a.time.date)
  | .VelocityMaxFilter _, a => .ok (.num a.velocity)
  | .VelocityMinFilter _, a => .ok (.num a.velocity)

/-- `__call__`: `self.op(self.get(approach), self.value)` — evaluate the
accessor first (which may raise on the base class), then compare. -/
def call (f : AttributeFilter) (a : CloseApproach) : Except FilterError Bool :=
  (f.get a).map fun x => f.op.apply x f.value

end AttributeFilter

/-! ## The factory `create_filters` (`filters.py`, lines 211-274)

Each optional criterion is `None` or a value; each Python
`if criterion: filters.append(F(criterion))` statement becomes one
"piece", and the returned tuple is the concatenation of the ten pieces
in source order.  Python truthiness: a `datetime.date` object is always
truthy, so the three date pieces test only presence; a float is falsy
exactly when it is zero, so the six numeric pieces test presence and
nonzeroness; the hazard piece is guarded by `hazardous is not None`. -/

/-- `if date: filters.append(DateFilter(date))` — a date object is always truthy. -/
def datePiece (date : Option ℤ) : List AttributeFilter :=
  match date with
  | some d => [.DateFilter d]
  | none => []

/-- `if start_date: filters.append(StartDateFilter(start_date))`. -/
def startDatePiece (start_date : Option ℤ) : List AttributeFilter :=
  match start_date with
  | some d => [.StartDateFilter d]
  | none => []

/-- `if end_date: filters.append(EndDateFilter(end_date))`. -/
def endDatePiece (end_date : Option ℤ) : List AttributeFilter :=
  match end_date with
  | some d => [.EndDateFilter d]
  | none => []

/-- `if distance_min: filters.append(DistanceMinFilter(distance_min))` —
`0.0` is falsy, so a zero bound appends nothing. -/
def distanceMinPiece (distance_min : Option ℚ) : List AttributeFilter :=
  match distance_min with
  | some q => if q ≠ 0 then [.DistanceMinFilter q] else []
  | none => []

/-- `if distance_max: filters.append(DistanceMaxFilter(distance_max))`. -/
def distanceMaxPiece (distance_max : Option ℚ) : List AttributeFilter :=
  match distance_max with
  | some q => if q ≠ 0 then [.DistanceMaxFilter q] else []
  | none => []

/-- `if velocity_min: filters.append(VelocityMinFilter(velocity_min))`. -/
def velocityMinPiece (velocity_min : Option ℚ) : List AttributeFilter :=
  match velocity_min with
  | some q => if q ≠ 0 then [.VelocityMinFilter q] else []
  | none => []

/-- `if velocity_max: filters.append(VelocityMaxFilter(velocity_max))`. -/
def velocityMaxPiece (velocity_max : Option ℚ) : List AttributeFilter :=
  match velocity_max with
  | some q => if q ≠ 0 then [.VelocityMaxFilter q] else []
  | none => []

/-- `if diameter_min: filters.append(DiameterMinFilter(diameter_min))`. -/
def diameterMinPiece (diameter_min : Option ℚ) : List AttributeFilter :=
  match diameter_min with
  | some q => if q ≠ 0 then [.DiameterMinFilter q] else []
  | none => []

/-- `if diameter_max: filters.append(DiameterMaxFilter(diameter_max))`. -/
def diameterMaxPiece (diameter_max : Option ℚ) : List AttributeFilter :=
  match diameter_max with
  | some q => if q ≠ 0 then [.DiameterMaxFilter q] else []
  | none => []

/-- `if hazardous is not None: filters.append(HazardousFilter(hazardous))` —
presence alone, so `False` still appends. -/
def hazardousPiece (hazardous : Option Bool) : List AttributeFilter :=
  match hazardous with
  | some b => [.HazardousFilter b]
  | none => []

/-- `create_filters(date, start_date, end_date, distance_min, distance_max,
velocity_min, velocity_max, diameter_min, diameter_max, hazardous)`:
the ten conditional appends in source order, returned as a tuple. -/
def create_filters (date start_date end_date : Option ℤ)
    (distance_min distance_max velocity_min velocity_max
      diameter_min diameter_max : Option ℚ)
    (hazardous : Option Bool) : List AttributeFilter :=
  datePiece date ++ startDatePiece start_date ++ endDatePiece end_date ++
    distanceMinPiece distance_min ++ distanceMaxPiece distance_max ++
    velocityMinPiece velocity_min ++ velocityMaxPiece velocity_max ++
    diameterMinPiece diameter_min ++ diameterMaxPiece diameter_max ++
    hazardousPiece hazardous

deriving instance DecidableEq for Except

/-- Modelled from the spec: the downstream query evaluator (the `query`
method of `NEODatabase`, outside these sources) "accepts a record only if
every predicate in the collection returns true; an empty collection
accepts every record" (spec section 4.2). -/
def acceptsRecord (fs : List AttributeFilter) (a : CloseApproach) : Bool :=
  fs.all fun f => decide (f.call a = .ok true)

/-! ## The limiter `limit` (`filters.py`, lines 277-291)

```
def limit(iterator, n=None):
    for index, value in enumerate(iterator):
        if n == 0 or n is None:
            yield value
        elif index < n and n > 0:
            yield value
```

The generator is embedded as an event trace over a (finite) input list:
each loop iteration first consumes one element of the input iterator,
then emits it when the guard holds.  The trace records exactly what the
generator does when its caller exhausts it: the `for` loop has no
`break`, so it runs until `enumerate(iterator)` is exhausted. -/

/-- One step of the generator: an element pulled from the input iterator,
or a value yielded to the caller. -/
inductive GenEvent (α : Type) where
  | consume (a : α)
  | emit (a : α)
deriving DecidableEq, Repr

/-- The guard of the loop body: yield when `n == 0 or n is None`, else
when `index < n and n > 0`. -/
def limitKeep (n : Option ℤ) (index : ℕ) : Bool :=
  match n with
  | none => true
  | some m => if m = 0 then true else decide ((index : ℤ) < m ∧ 0 < m)

/-- The full event trace of `limit(iterator, n)` run to exhaustion,
starting at loop counter `index`: every iteration consumes the next
input element, then emits it when the guard holds. -/
def limitTrace (n : Option ℤ) : List α → ℕ → List (GenEvent α)
  | [], _ => []
  | x :: xs, index =>
      .consume x :: ((if limitKeep n index then [.emit x] else []) ++
        limitTrace n xs (index + 1))

/-- `limit(iterator, n)` as observed by its caller: the sequence of
yielded values, read off the trace. -/
def limit (iterator : List α) (n : Option ℤ) : List α :=
  (limitTrace n iterator 0).filterMap fun e =>
    match e with
    | .emit a => some a
    | .consume _ => none

/-- The elements of the input iterator consumed when the caller exhausts
`limit(iterator, n)`, read off the same trace. -/
def limitConsumed (iterator : List α) (n : Option ℤ) : List α :=
  (limitTrace n iterator 0).filterMap fun e =>
    match e with
    | .consume a => some a
    | .emit _ => none

/-! ## The duplicate catalog under `src/filters/` (one file per variant)

Each `src/filters/X.py` defines the same-named class again, inheriting
`__call__` from a base class in `filters/AttributeFilter.py`.  That base
module is not among the sources; its invoke-on-record is modelled from
the spec (section 4.1): "invoke-on-record ... computes
`accessor(record) OP value` and returns a boolean". -/

namespace FiltersPkg

/-- The ten classes of the `src/filters/` package, one per file, each
holding the reference value its `__init__` takes. -/
inductive PkgFilter where
  | DateFilter (date : ℤ)
  | DiameterMaxFilter (diameter : ℚ)
  | DiameterMinFilter (diameter : ℚ)
  | DistanceMaxFilter (distance : ℚ)
  | DistanceMinFilter (distance : ℚ)
  | EndDateFilter (date : ℤ)
  | HazardousFilter (hazardous : Bool)
  | StartDateFilter (date : ℤ)
  | VelocityMaxFilter (velocity : ℚ)
  | VelocityMinFilter (velocity : ℚ)
deriving DecidableEq, Repr

/-- The comparator each class passes to `super().__init__`. -/
def PkgFilter.op : PkgFilter → PyOp
  | .DateFilter _ => .eq
  | .DiameterMaxFilter _ => .le
  | .DiameterMinFilter _ => .ge
  | .DistanceMaxFilter _ => .le
  | .DistanceMinFilter _ => .ge
  | .EndDateFilter _ => .le
  | .HazardousFilter _ => .eq
  | .StartDateFilter _ => .ge
  | .VelocityMaxFilter _ => .le
  | .VelocityMinFilter _ => .ge

/-- The reference value each class passes to `super().__init__`. -/
def PkgFilter.value : PkgFilter → AttrValue
  | .DateFilter d => .date d
  | .DiameterMaxFilter q => .num q
  | .DiameterMinFilter q => .num q
  | .DistanceMaxFilter q => .num q
  | .DistanceMinFilter q => .num q
  | .EndDateFilter d => .date d
  | .HazardousFilter b => .flag b
  | .StartDateFilter d => .date d
  | .VelocityMaxFilter q => .num q
  | .VelocityMinFilter q => .num q

/-- The `get` classmethod each class overrides. -/
def PkgFilter.get : PkgFilter → CloseApproach → AttrValue
  | .DateFilter _, a => .date a.time.date
  | .DiameterMaxFilter _, a => .num a.neo.diameter
  | .DiameterMinFilter _, a => .num a.neo.diameter
  | .DistanceMaxFilter _, a => .num a.distance
  | .DistanceMinFilter _, a => .num a.distance
  | .EndDateFilter _, a => .date a.time.date
  | .HazardousFilter _, a => .flag a.neo.hazardous
  | .StartDateFilter _, a => .date a.time.date
  | .VelocityMaxFilter _, a => .num a.velocity
  | .VelocityMinFilter _, a => .num a.velocity

/-- Modelled from the spec: the inherited invoke-on-record of the absent
base module `filters/AttributeFilter.py` "computes `accessor(record) OP
value` and returns a boolean" (spec section 4.1). -/
def PkgFilter.call (f : PkgFilter) (a : CloseApproach) : Bool :=
  f.op.apply (f.get a) f.value

end FiltersPkg

/-- Canonical position of each concrete variant in the factory's append
order (`date, start_date, end_date, distance_min, distance_max,
velocity_min, velocity_max, diameter_min, diameter_max, hazardous`);
the base class, which the factory never emits, sits outside the range. -/
def canonicalIndex : AttributeFilter → ℕ
  | .DateFilter _ => 0
  | .StartDateFilter _ => 1
  | .EndDateFilter _ => 2
  | .DistanceMinFilter _ => 3
  | .DistanceMaxFilter _ => 4
  | .VelocityMinFilter _ => 5
  | .VelocityMaxFilter _ => 6
  | .DiameterMinFilter _ => 7
  | .DiameterMaxFilter _ => 8
  | .HazardousFilter _ => 9
  | .mk _ _ => 10

/-! ### Lemmas about the factory pieces -/

@[simp] lemma mem_datePiece {f : AttributeFilter} {d : Option ℤ} :
    f ∈ datePiece d ↔ ∃ x, d = some x ∧ f = .DateFilter x := by
  cases d <;> simp [datePiece]

@[simp] lemma mem_startDatePiece {f : AttributeFilter} {d : Option ℤ} :
    f ∈ startDatePiece d ↔ ∃ x, d = some x ∧ f = .StartDateFilter x := by
  cases d <;> simp [startDatePiece]

@[simp] lemma mem_endDatePiece {f : AttributeFilter} {d : Option ℤ} :
    f ∈ endDatePiece d ↔ ∃ x, d = some x ∧ f = .EndDateFilter x := by
  cases d <;> simp [endDatePiece]

@[simp] lemma mem_distanceMinPiece {f : AttributeFilter} {d : Option ℚ} :
    f ∈ distanceMinPiece d ↔ ∃ x, d = some x ∧ x ≠ 0 ∧ f = .DistanceMinFilter x := by
  cases d with
  | none => simp [distanceMinPiece]
  | some q => by_cases hq : q = 0 <;> simp [distanceMinPiece, hq]

@[simp] lemma mem_distanceMaxPiece {f : AttributeFilter} {d : Option ℚ} :
    f ∈ distanceMaxPiece d ↔ ∃ x, d = some x ∧ x ≠ 0 ∧ f = .DistanceMaxFilter x := by
  cases d with
  | none => simp [distanceMaxPiece]
  | some q => by_cases hq : q = 0 <;> simp [distanceMaxPiece, hq]

@[simp] lemma mem_velocityMinPiece {f : AttributeFilter} {d : Option ℚ} :
    f ∈ velocityMinPiece d ↔ ∃ x, d = some x ∧ x ≠ 0 ∧ f = .VelocityMinFilter x := by
  cases d with
  | none => simp [velocityMinPiece]
  | some q => by_cases hq : q = 0 <;> simp [velocityMinPiece, hq]

@[simp] lemma mem_velocityMaxPiece {f : AttributeFilter} {d : Option ℚ} :
    f ∈ velocityMaxPiece d ↔ ∃ x, d = some x ∧ x ≠ 0 ∧ f = .VelocityMaxFilter x := by
  cases d with
  | none => simp [velocityMaxPiece]
  | some q => by_cases hq : q = 0 <;> simp [velocityMaxPiece, hq]

@[simp] lemma mem_diameterMinPiece {f : AttributeFilter} {d : Option ℚ} :
    f ∈ diameterMinPiece d ↔ ∃ x, d = some x ∧ x ≠ 0 ∧ f = .DiameterMinFilter x := by
  cases d with
  | none => simp [diameterMinPiece]
  | some q => by_cases hq : q = 0 <;> simp [diameterMinPiece, hq]

@[simp] lemma mem_diameterMaxPiece {f : AttributeFilter} {d : Option ℚ} :
    f ∈ diameterMaxPiece d ↔ ∃ x, d = some x ∧ x ≠ 0 ∧ f = .DiameterMaxFilter x := by
  cases d with
  | none => simp [diameterMaxPiece]
  | some q => by_cases hq : q = 0 <;> simp [diameterMaxPiece, hq]

@[simp] lemma mem_hazardousPiece {f : AttributeFilter} {d : Option Bool} :
    f ∈ hazardousPiece d ↔ ∃ x, d = some x ∧ f = .HazardousFilter x := by
  cases d <;> simp [hazardousPiece]

lemma datePiece_sublist (d : Option ℤ) :
    ((datePiece d).map canonicalIndex).Sublist [0] := by
  cases d <;> simp [datePiece, canonicalIndex]

lemma startDatePiece_sublist (d : Option ℤ) :
    ((startDatePiece d).map canonicalIndex).Sublist [1] := by
  cases d <;> simp [startDatePiece, canonicalIndex]

lemma endDatePiece_sublist (d : Option ℤ) :
    ((endDatePiece d).map canonicalIndex).Sublist [2] := by
  cases d <;> simp [endDatePiece, canonicalIndex]

lemma distanceMinPiece_sublist (d : Option ℚ) :
    ((distanceMinPiece d).map canonicalIndex).Sublist [3] := by
  cases d with
  | none => simp [distanceMinPiece]
  | some q => by_cases hq : q = 0 <;> simp [distanceMinPiece, hq, canonicalIndex]

lemma distanceMaxPiece_sublist (d : Option ℚ) :
    ((distanceMaxPiece d).map canonicalIndex).Sublist [4] := by
  cases d with
  | none => simp [distanceMaxPiece]
  | some q => by_cases hq : q = 0 <;> simp [distanceMaxPiece, hq, canonicalIndex]

lemma velocityMinPiece_sublist (d : Option ℚ) :
    ((velocityMinPiece d).map canonicalIndex).Sublist [5] := by
  cases d with
  | none => simp [velocityMinPiece]
  | some q => by_cases hq : q = 0 <;> simp [velocityMinPiece, hq, canonicalIndex]

lemma velocityMaxPiece_sublist (d : Option ℚ) :
    ((velocityMaxPiece d).map canonicalIndex).Sublist [6] := by
  cases d with
  | none => simp [velocityMaxPiece]
  | some q => by_cases hq : q = 0 <;> simp [velocityMaxPiece, hq, canonicalIndex]

lemma diameterMinPiece_sublist (d : Option ℚ) :
    ((diameterMinPiece d).map canonicalIndex).Sublist [7] := by
  cases d with
  | none => simp [diameterMinPiece]
  | some q => by_cases hq : q = 0 <;> simp [diameterMinPiece, hq, canonicalIndex]

lemma diameterMaxPiece_sublist (d : Option ℚ) :
    ((diameterMaxPiece d).map canonicalIndex).Sublist [8] := by
  cases d with
  | none => simp [diameterMaxPiece]
  | some q => by_cases hq : q = 0 <;> simp [diameterMaxPiece, hq, canonicalIndex]

lemma hazardousPiece_sublist (d : Option Bool) :
    ((hazardousPiece d).map canonicalIndex).Sublist [9] := by
  cases d <;> simp [hazardousPiece, canonicalIndex]

/-! ### Lemmas about the limiter trace -/

variable {α : Type}

/-- Every loop iteration consumes its input element, and the loop has no
`break`: the consumed elements of the exhausted trace are exactly the
whole input, whatever `n` is. -/
lemma limitTrace_consumed (n : Option ℤ) :
    ∀ (xs : List α) (i : ℕ),
      ((limitTrace n xs i).filterMap fun e =>
        match e with
        | .consume a => some a
        | .emit _ => none) = xs := by
  intro xs
  induction xs with
  | nil => intro i; simp [limitTrace]
  | cons x xs ih =>
      intro i
      by_cases h : limitKeep n i <;>
        simp [limitTrace, h, ih (i + 1)]

/-- With `n = None` or `n = 0` the guard always holds: every element is
emitted. -/
lemma limitTrace_emit_all {n : Option ℤ} (hn : n = none ∨ n = some 0) :
    ∀ (xs : List α) (i : ℕ),
      ((limitTrace n xs i).filterMap fun e =>
        match e with
        | .emit a => some a
        | .consume _ => none) = xs := by
  intro xs
  induction xs with
  | nil => intro i; simp [limitTrace]
  | cons x xs ih =>
      intro i
      have hkeep : limitKeep n i = true := by
        rcases hn with h | h <;> simp [limitKeep, h]
      simp [limitTrace, hkeep, ih (i + 1)]

/-- With `n` a positive integer, the elements emitted from loop counter
`i` onward are the first `n - i` remaining elements. -/
lemma limitTrace_emit_pos {m : ℤ} (hm : 0 < m) :
    ∀ (xs : List α) (i : ℕ),
      ((limitTrace (some m) xs i).filterMap fun e =>
        match e with
        | .emit a => some a
        | .consume _ => none) = xs.take (m - i).toNat := by
  intro xs
  induction xs with
  | nil => intro i; simp [limitTrace]
  | cons x xs ih =>
      intro i
      have hm0 : ¬ m = 0 := by omega
      by_cases hi : (i : ℤ) < m
      · have hkeep : limitKeep (some m) i = true := by
          simp [limitKeep, hm0, hi, hm]
        have hstep : (m - i).toNat = (m - (i + 1 : ℕ)).toNat + 1 := by
          push_cast
          omega
        simp [limitTrace, hkeep, ih (i + 1), hstep]
      · have hkeep : limitKeep (some m) i = false := by
          simp [limitKeep, hm0, hi]
        have h1 : (m - i).toNat = 0 := by omega
        have h2 : (m - (i + 1 : ℕ)).toNat = 0 := by push_cast; omega
        simp [limitTrace, hkeep, ih (i + 1), h1, h2]
        exact Or.inl (by omega)

/-- With `n` a negative integer, the guard never holds: nothing is
emitted. -/
lemma limitTrace_emit_neg {m : ℤ} (hm : m < 0) :
    ∀ (xs : List α) (i : ℕ),
      ((limitTrace (some m) xs i).filterMap fun e =>
        match e with
        | .emit a => some a
        | .consume _ => none) = [] := by
  intro xs
  induction xs with
  | nil => intro i; simp [limitTrace]
  | cons x xs ih =>
      intro i
      have hkeep : limitKeep (some m) i = false := by
        simp [limitKeep]
        omega
      simp [limitTrace, hkeep, ih (i + 1)]

lemma limit_eq_of_none_or_zero {n : Option ℤ} (hn : n = none ∨ n = some 0)
    (xs : List α) : limit xs n = xs :=
  limitTrace_emit_all hn xs 0

lemma limit_eq_take {m : ℤ} (hm : 0 < m) (xs : List α) :
    limit xs (some m) = xs.take m.toNat := by
  have h := limitTrace_emit_pos (α := α) hm xs 0
  simpa using h

lemma limit_eq_nil_of_neg {m : ℤ} (hm : m < 0) (xs : List α) :
    limit xs (some m) = [] :=
  limitTrace_emit_neg hm xs 0

lemma limitConsumed_eq (n : Option ℤ) (xs : List α) :
    limitConsumed xs n = xs :=
  limitTrace_consumed n xs 0

/-- A concrete record whose NEO is flagged hazardous. -/
def sampleHazardous : CloseApproach :=
  { time := ⟨738000⟩, distance := 2, velocity := 5,
    neo := { diameter := 1, hazardous := true } }

/-- A concrete record whose NEO is not flagged hazardous. -/
def sampleSafe : CloseApproach :=
  { time := ⟨738001⟩, distance := 3, velocity := 7,
    neo := { diameter := 2, hazardous := false } }

/-! ## The claims -/

/-- Claim C3: each "min" predicate returns true iff the accessed
attribute is ≥ the reference value, each "max" predicate iff it is ≤,
and the date and hazard predicates iff it equals the reference value,
with each variant reading the accessor the spec's table assigns it
(time→date, distance, velocity, body diameter, body hazard flag); the
equalities below give each call's boolean result exactly. -/
theorem claim3_predicate_semantics (a : CloseApproach) :
    (∀ v : ℤ, (AttributeFilter.StartDateFilter v).call a =
      .ok (decide (a.time.date ≥ v))) ∧
    (∀ v : ℚ, (AttributeFilter.DistanceMinFilter v).call a =
      .ok (decide (a.distance ≥ v))) ∧
    (∀ v : ℚ, (AttributeFilter.VelocityMinFilter v).call a =
      .ok (decide (a.velocity ≥ v))) ∧
    (∀ v : ℚ, (AttributeFilter.DiameterMinFilter v).call a =
      .ok (decide (a.neo.diameter ≥ v))) ∧
    (∀ v : ℤ, (AttributeFilter.EndDateFilter v).call a =
      .ok (decide (a.time.date ≤ v))) ∧
    (∀ v : ℚ, (AttributeFilter.DistanceMaxFilter v).call a =
      .ok (decide (a.distance ≤ v))) ∧
    (∀ v : ℚ, (AttributeFilter.VelocityMaxFilter v).call a =
      .ok (decide (a.velocity ≤ v))) ∧
    (∀ v : ℚ, (AttributeFilter.DiameterMaxFilter v).call a =
      .ok (decide (a.neo.diameter ≤ v))) ∧
    (∀ v : ℤ, (AttributeFilter.DateFilter v).call a =
      .ok (decide (a.time.date = v))) ∧
    (∀ v : Bool, (AttributeFilter.HazardousFilter v).call a =
      .ok (a.neo.hazardous == v)) :=
  ⟨fun _ => rfl, fun _ => rfl, fun _ => rfl, fun _ => rfl, fun _ => rfl,
   fun _ => rfl, fun _ => rfl, fun _ => rfl, fun _ => rfl, fun _ => rfl⟩

/-- Claim C5 (confirmed): `limit(seq, 0)` and `limit(seq, None)` each
yield every element of the input in original order — absent and zero
both mean unlimited. -/
theorem claim5_zero_and_none_unlimited {α : Type} (xs : List α) :
    limit xs none = xs ∧ limit xs (some 0) = xs :=
  ⟨limit_eq_of_none_or_zero (Or.inl rfl) xs,
   limit_eq_of_none_or_zero (Or.inr rfl) xs⟩

/-- Claim C6 (confirmed): for `n > 0`, `limit` yields exactly the first
`min n (length of input)` elements of the input, unmodified and in
order; with fewer than `n` elements it yields them all and nothing
extra. -/
theorem claim6_limit_truncates {α : Type} (xs : List α) (m : ℤ) (hm : 0 < m) :
    limit xs (some m) = xs.take m.toNat ∧
    (limit xs (some m)).length = min m.toNat xs.length := by
  have h := limit_eq_take hm xs
  exact ⟨h, by simp [h]⟩

/-- Witness for C6 at a 2-element sequence with `n = 5`. -/
theorem claim6_witness :
    0 < (5 : ℤ) ∧ limit ([10, 20] : List ℤ) (some 5) = [10, 20] :=
  ⟨by decide, by
    have h := (claim6_limit_truncates ([10, 20] : List ℤ) 5 (by decide)).1
    rw [h]; decide⟩

/-- Claim C10 (confirmed): for every negative `n`, `limit` yields no
elements at all and does not fail — the guard `index < n and n > 0`
never holds and the `n == 0 or n is None` branch is not taken. -/
theorem claim10_negative_limit {α : Type} (xs : List α) (m : ℤ) (hm : m < 0) :
    limit xs (some m) = [] :=
  limit_eq_nil_of_neg hm xs

/-- Witness for C10 at `n = -1`. -/
theorem claim10_witness : limit ([1, 2, 3] : List ℤ) (some (-1)) = [] :=
  claim10_negative_limit [1, 2, 3] (-1) (by decide)

/-- Counterexample to claim C2 as stated: with `n = 2` over a 4-element
input, `limit` yields the first 2 elements, yet the element at
position 2 of the input (value 30) is still consumed when the caller
exhausts the output — the loop has no `break`. -/
theorem claim2_counterexample :
    limit ([10, 20, 30, 40] : List ℤ) (some 2) = [10, 20] ∧
    (30 : ℤ) ∈ limitConsumed ([10, 20, 30, 40] : List ℤ) (some 2) :=
  ⟨by decide, by decide⟩

/-- Claim C2 as amended: for `n > 0`, `limit` yields exactly the first
`n` elements, but it does not stop pulling from the input — when the
caller exhausts the output, the entire input sequence has been
consumed, elements past position `n` included. -/
theorem claim2_amended_full_consumption {α : Type} (xs : List α) (m : ℤ)
    (hm : 0 < m) :
    limit xs (some m) = xs.take m.toNat ∧ limitConsumed xs (some m) = xs :=
  ⟨limit_eq_take hm xs, limitConsumed_eq (some m) xs⟩

/-- Witness for the amended C2 at `n = 2` over a 3-element input. -/
theorem claim2_witness :
    0 < (2 : ℤ) ∧ limitConsumed ([10, 20, 30] : List ℤ) (some 2) = [10, 20, 30] :=
  ⟨by decide, (claim2_amended_full_consumption ([10, 20, 30] : List ℤ) 2 (by decide)).2⟩

/-- Claim C7 (confirmed): `create_filters` with every criterion absent
returns an empty collection, and the conjunction over no predicates
accepts every record. -/
theorem claim7_empty_filters :
    create_filters none none none none none none none none none none = [] ∧
    (∀ a : CloseApproach, acceptsRecord [] a = true) ∧
    (∀ a : CloseApproach,
      acceptsRecord
        (create_filters none none none none none none none none none none)
        a = true) :=
  ⟨rfl, fun _ => rfl, fun _ => rfl⟩

/-- Claim C4 (confirmed): `create_filters(hazardous=False)` returns
exactly one predicate, which rejects every record whose NEO is
hazardous and accepts every record whose NEO is not, while
`create_filters()` with no criteria accepts every record — a legitimate
`False` is distinguished from "criterion not supplied". -/
theorem claim4_hazardous_false :
    create_filters none none none none none none none none none (some false) =
      [.HazardousFilter false] ∧
    (∀ a : CloseApproach, a.neo.hazardous = true →
      acceptsRecord
        (create_filters none none none none none none none none none
          (some false)) a = false) ∧
    (∀ a : CloseApproach, a.neo.hazardous = false →
      acceptsRecord
        (create_filters none none none none none none none none none
          (some false)) a = true) ∧
    (∀ a : CloseApproach,
      acceptsRecord
        (create_filters none none none none none none none none none none)
        a = true) := by
  refine ⟨rfl, ?_, ?_, fun _ => rfl⟩
  · intro a h
    simp [acceptsRecord, create_filters, datePiece, startDatePiece,
      endDatePiece, distanceMinPiece, distanceMaxPiece, velocityMinPiece,
      velocityMaxPiece, diameterMinPiece, diameterMaxPiece, hazardousPiece,
      AttributeFilter.call, AttributeFilter.get, AttributeFilter.op,
      AttributeFilter.value, PyOp.apply, Except.map, h]
  · intro a h
    simp [acceptsRecord, create_filters, datePiece, startDatePiece,
      endDatePiece, distanceMinPiece, distanceMaxPiece, velocityMinPiece,
      velocityMaxPiece, diameterMinPiece, diameterMaxPiece, hazardousPiece,
      AttributeFilter.call, AttributeFilter.get, AttributeFilter.op,
      AttributeFilter.value, PyOp.apply, Except.map, h]

/-- Witness for C4 on one hazardous and one non-hazardous record. -/
theorem claim4_witness :
    acceptsRecord
      (create_filters none none none none none none none none none
        (some false)) sampleHazardous = false ∧
    acceptsRecord
      (create_filters none none none none none none none none none
        (some false)) sampleSafe = true :=
  ⟨claim4_hazardous_false.2.1 sampleHazardous rfl,
   claim4_hazardous_false.2.2.1 sampleSafe rfl⟩

/-- Claim C8 (confirmed): invoking the base `AttributeFilter` (its `get`
not overridden) on any record fails with `UnsupportedCriterionError`,
and this is the only error: every filter the factory produces succeeds
on every record (the model's `create_filters` and `limit` are total
functions, so neither can fail on any input). -/
theorem claim8_error_behavior :
    (∀ (o : PyOp) (v : AttrValue) (a : CloseApproach),
      (AttributeFilter.mk o v).call a = .error .unsupportedCriterionError) ∧
    (∀ (d s e : Option ℤ) (dm dx vm vx im ix : Option ℚ) (hz : Option Bool)
      (f : AttributeFilter), f ∈ create_filters d s e dm dx vm vx im ix hz →
      ∀ a : CloseApproach, (f.call a).isOk = true) := by
  refine ⟨fun _ _ _ => rfl, ?_⟩
  intro d s e dm dx vm vx im ix hz f hf a
  cases f <;> try rfl
  simp [create_filters] at hf

/-- Witness for C8: the base filter errors on a concrete record, while
a factory-produced filter succeeds on it. -/
theorem claim8_witness :
    (AttributeFilter.mk .eq (.num 0)).call sampleHazardous =
      .error .unsupportedCriterionError ∧
    ((AttributeFilter.HazardousFilter false).call sampleHazardous).isOk = true :=
  ⟨claim8_error_behavior.1 .eq (.num 0) sampleHazardous,
   claim8_error_behavior.2 none none none none none none none none none
     (some false) (.HazardousFilter false) (by decide) sampleHazardous⟩

/-- Claim C9 (confirmed): for each of the ten variants, the class in
`filters.py` and the same-named class under `src/filters/` fix the same
comparison operator, store the same reference value, and return the
same boolean on every record. -/
theorem claim9_duplicate_catalog_equal (a : CloseApproach) :
    (∀ x : ℤ, (AttributeFilter.DateFilter x).call a =
        .ok ((FiltersPkg.PkgFilter.DateFilter x).call a) ∧
      (AttributeFilter.DateFilter x).op = (FiltersPkg.PkgFilter.DateFilter x).op ∧
      (AttributeFilter.DateFilter x).value =
        (FiltersPkg.PkgFilter.DateFilter x).value) ∧
    (∀ x : ℚ, (AttributeFilter.DiameterMaxFilter x).call a =
        .ok ((FiltersPkg.PkgFilter.DiameterMaxFilter x).call a) ∧
      (AttributeFilter.DiameterMaxFilter x).op =
        (FiltersPkg.PkgFilter.DiameterMaxFilter x).op ∧
      (AttributeFilter.DiameterMaxFilter x).value =
        (FiltersPkg.PkgFilter.DiameterMaxFilter x).value) ∧
    (∀ x : ℚ, (AttributeFilter.DiameterMinFilter x).call a =
        .ok ((FiltersPkg.PkgFilter.DiameterMinFilter x).call a) ∧
      (AttributeFilter.DiameterMinFilter x).op =
        (FiltersPkg.PkgFilter.DiameterMinFilter x).op ∧
      (AttributeFilter.DiameterMinFilter x).value =
        (FiltersPkg.PkgFilter.DiameterMinFilter x).value) ∧
    (∀ x : ℚ, (AttributeFilter.DistanceMaxFilter x).call a =
        .ok ((FiltersPkg.PkgFilter.DistanceMaxFilter x).call a) ∧
      (AttributeFilter.DistanceMaxFilter x).op =
        (FiltersPkg.PkgFilter.DistanceMaxFilter x).op ∧
      (AttributeFilter.DistanceMaxFilter x).value =
        (FiltersPkg.PkgFilter.DistanceMaxFilter x).value) ∧
    (∀ x : ℚ, (AttributeFilter.DistanceMinFilter x).call a =
        .ok ((FiltersPkg.PkgFilter.DistanceMinFilter x).call a) ∧
      (AttributeFilter.DistanceMinFilter x).op =
        (FiltersPkg.PkgFilter.DistanceMinFilter x).op ∧
      (AttributeFilter.DistanceMinFilter x).value =
        (FiltersPkg.PkgFilter.DistanceMinFilter x).value) ∧
    (∀ x : ℤ, (AttributeFilter.EndDateFilter x).call a =
        .ok ((FiltersPkg.PkgFilter.EndDateFilter x).call a) ∧
      (AttributeFilter.EndDateFilter x).op =
        (FiltersPkg.PkgFilter.EndDateFilter x).op ∧
      (AttributeFilter.EndDateFilter x).value =
        (FiltersPkg.PkgFilter.EndDateFilter x).value) ∧
    (∀ x : Bool, (AttributeFilter.HazardousFilter x).call a =
        .ok ((FiltersPkg.PkgFilter.HazardousFilter x).call a) ∧
      (AttributeFilter.HazardousFilter x).op =
        (FiltersPkg.PkgFilter.HazardousFilter x).op ∧
      (AttributeFilter.HazardousFilter x).value =
        (FiltersPkg.PkgFilter.HazardousFilter x).value) ∧
    (∀ x : ℤ, (AttributeFilter.StartDateFilter x).call a =
        .ok ((FiltersPkg.PkgFilter.StartDateFilter x).call a) ∧
      (AttributeFilter.StartDateFilter x).op =
        (FiltersPkg.PkgFilter.StartDateFilter x).op ∧
      (AttributeFilter.StartDateFilter x).value =
        (FiltersPkg.PkgFilter.StartDateFilter x).value) ∧
    (∀ x : ℚ, (AttributeFilter.VelocityMaxFilter x).call a =
        .ok ((FiltersPkg.PkgFilter.VelocityMaxFilter x).call a) ∧
      (AttributeFilter.VelocityMaxFilter x).op =
        (FiltersPkg.PkgFilter.VelocityMaxFilter x).op ∧
      (AttributeFilter.VelocityMaxFilter x).value =
        (FiltersPkg.PkgFilter.VelocityMaxFilter x).value) ∧
    (∀ x : ℚ, (AttributeFilter.VelocityMinFilter x).call a =
        .ok ((FiltersPkg.PkgFilter.VelocityMinFilter x).call a) ∧
      (AttributeFilter.VelocityMinFilter x).op =
        (FiltersPkg.PkgFilter.VelocityMinFilter x).op ∧
      (AttributeFilter.VelocityMinFilter x).value =
        (FiltersPkg.PkgFilter.VelocityMinFilter x).value) :=
  ⟨fun _ => ⟨rfl, rfl, rfl⟩, fun _ => ⟨rfl, rfl, rfl⟩, fun _ => ⟨rfl, rfl, rfl⟩,
   fun _ => ⟨rfl, rfl, rfl⟩, fun _ => ⟨rfl, rfl, rfl⟩, fun _ => ⟨rfl, rfl, rfl⟩,
   fun _ => ⟨rfl, rfl, rfl⟩, fun _ => ⟨rfl, rfl, rfl⟩, fun _ => ⟨rfl, rfl, rfl⟩,
   fun _ => ⟨rfl, rfl, rfl⟩⟩

/-- Counterexample to claim C1 as stated: `distance_min = 0.0` (all
other criteria absent) yields no `DistanceMinFilter` — the factory
tests the numeric criteria with truthiness, and `0.0` is falsy, so the
returned collection is empty. -/
theorem claim1_counterexample :
    create_filters none none none (some 0) none none none none none none = [] ∧
    AttributeFilter.DistanceMinFilter 0 ∉
      create_filters none none none (some 0) none none none none none none :=
  ⟨by decide, by decide⟩

/-- Claim C1 as amended: `create_filters` appends at most one concrete
predicate per criterion, in the fixed canonical order (witnessed by the
canonical indices of the output forming a sublist of
`[0, 1, 2, 3, 4, 5, 6, 7, 8, 9]`), and never emits the base class; a
predicate appears for a date criterion iff that criterion is present,
for `hazardous` iff it is present (even when `False`), and for each of
the six numeric bounds iff the bound is present AND nonzero — a bound
of exactly `0`/`0.0` is dropped by the truthiness test; nothing is
constructed for an absent criterion. -/
theorem claim1_factory_characterization
    (d s e : Option ℤ) (dm dx vm vx im ix : Option ℚ) (hz : Option Bool) :
    ((create_filters d s e dm dx vm vx im ix hz).map canonicalIndex).Sublist
      [0, 1, 2, 3, 4, 5, 6, 7, 8, 9] ∧
    (∀ x, .DateFilter x ∈ create_filters d s e dm dx vm vx im ix hz ↔
      d = some x) ∧
    (∀ x, .StartDateFilter x ∈ create_filters d s e dm dx vm vx im ix hz ↔
      s = some x) ∧
    (∀ x, .EndDateFilter x ∈ create_filters d s e dm dx vm vx im ix hz ↔
      e = some x) ∧
    (∀ x, .DistanceMinFilter x ∈ create_filters d s e dm dx vm vx im ix hz ↔
      dm = some x ∧ x ≠ 0) ∧
    (∀ x, .DistanceMaxFilter x ∈ create_filters d s e dm dx vm vx im ix hz ↔
      dx = some x ∧ x ≠ 0) ∧
    (∀ x, .VelocityMinFilter x ∈ create_filters d s e dm dx vm vx im ix hz ↔
      vm = some x ∧ x ≠ 0) ∧
    (∀ x, .VelocityMaxFilter x ∈ create_filters d s e dm dx vm vx im ix hz ↔
      vx = some x ∧ x ≠ 0) ∧
    (∀ x, .DiameterMinFilter x ∈ create_filters d s e dm dx vm vx im ix hz ↔
      im = some x ∧ x ≠ 0) ∧
    (∀ x, .DiameterMaxFilter x ∈ create_filters d s e dm dx vm vx im ix hz ↔
      ix = some x ∧ x ≠ 0) ∧
    (∀ x, .HazardousFilter x ∈ create_filters d s e dm dx vm vx im ix hz ↔
      hz = some x) ∧
    (∀ o v, .mk o v ∉ create_filters d s e dm dx vm vx im ix hz) := by
  refine ⟨?_, ?_, ?_, ?_, ?_, ?_, ?_, ?_, ?_, ?_, ?_, ?_⟩
  · have h :=
      (((((((((datePiece_sublist d).append (startDatePiece_sublist s)).append
        (endDatePiece_sublist e)).append (distanceMinPiece_sublist dm)).append
        (distanceMaxPiece_sublist dx)).append
        (velocityMinPiece_sublist vm)).append
        (velocityMaxPiece_sublist vx)).append
        (diameterMinPiece_sublist im)).append
        (diameterMaxPiece_sublist ix)).append (hazardousPiece_sublist hz)
    simpa [create_filters] using h
  all_goals intro x
  all_goals simp [create_filters]

/-- Witness for the amended C1 at a concrete bundle: `hazardous=False`
and `distance_max = 2` each contribute their predicate. -/
theorem claim1_witness :
    AttributeFilter.HazardousFilter false ∈
      create_filters none none none none (some 2) none none none none
        (some false) ∧
    AttributeFilter.DistanceMaxFilter 2 ∈
      create_filters none none none none (some 2) none none none none
        (some false) :=
  ⟨((claim1_factory_characterization none none none none (some 2) none
      none none none (some false)).2.2.2.2.2.2.2.2.2.2.1 false).mpr rfl,
   ((claim1_factory_characterization none none none none (some 2) none
      none none none (some false)).2.2.2.2.2.1 2).mpr ⟨rfl, by simp⟩⟩

end NeoSearch
